import Mathlib

/-!
Verification of the evidence registry and session-mediation layer of the
Digital-forensic repository.

The two Python sources are shallowly embedded:
  - `src/forens_core/evidence.py` — the evidence registry (`add_evidence`,
    `resolve_evidence`, `close_evidence`) over a module-level dict and counter;
  - `src/test--1/web-application-digital-forensic-v1/webapp/app.py` — the
    Flask webapp: `DemoImageHandler`, `allowed_file`, `upload`, `api_list`,
    `api_file`, `view_file`, `api_carve`, `search`.

Python dictionaries become association lists, bytes become lists of
naturals, exceptions become `Except` results, and the external
`ImageHandler` constructor (not part of this repository's sources) is a
parameter whose outcome (success / ImportError / other exception) is left
abstract.
-/

namespace Forens

/-! ### Decimal formatting

Embeds the Python f-string pieces used by the sources: `str(n)` and the
zero-padded format `f"{n:03d}"` of `add_evidence`. -/

/-- Little-endian decimal digits of `n`, via an explicit fuel argument so the
definition is structurally recursive and evaluates inside the kernel. -/
def natDigitsAux : Nat → Nat → List Nat
  | 0, _ => []
  | _ + 1, 0 => []
  | fuel + 1, n + 1 => (n + 1) % 10 :: natDigitsAux fuel ((n + 1) / 10)

def natDigits (n : Nat) : List Nat := natDigitsAux n n

def digitChar (d : Nat) : Char := Char.ofNat (48 + d)

/-- The decimal digit characters of `n`, most significant first (empty for 0). -/
def natChars (n : Nat) : List Char := ((natDigits n).map digitChar).reverse

/-- Embedding of Python `str(n)` for a non-negative integer. -/
def natStr (n : Nat) : String := if n = 0 then "0" else ⟨natChars n⟩

/-- Embedding of Python `str(i)` for an arbitrary integer. -/
def intStr (i : Int) : String :=
  if i < 0 then "-" ++ natStr i.natAbs else natStr i.toNat

def pyFormat03Core (n : Nat) : List Char := if n = 0 then ['0'] else natChars n

/-- Embedding of the Python format `f"{n:03d}"` for `n ≥ 0`: the decimal
representation left-padded with zeros to at least three characters. -/
def pyFormat03 (n : Nat) : List Char :=
  List.replicate (3 - (pyFormat03Core n).length) '0' ++ pyFormat03Core n

/-- The evidence identifier `f"E{n:03d}"` built by `add_evidence`. -/
def mkId (n : Nat) : String := ⟨'E' :: pyFormat03 n⟩

/-- Decoder used to invert the decimal formatting (proof tool only). -/
def charDigit (c : Char) : Nat := c.toNat - 48

def decodeChars (s : List Char) : Nat := Nat.ofDigits 10 ((s.map charDigit).reverse)

lemma natDigitsAux_eq (fuel : Nat) : ∀ n : Nat, n ≤ fuel → natDigitsAux fuel n = Nat.digits 10 n := by
  induction fuel with
  | zero =>
    intro n hn
    have : n = 0 := Nat.le_zero.mp hn
    subst this; simp [natDigitsAux]
  | succ f ih =>
    intro n hn
    match n with
    | 0 => simp [natDigitsAux]
    | m + 1 =>
      rw [natDigitsAux, Nat.digits_def' (by norm_num : (1:Nat) < 10) (Nat.succ_pos m)]
      have hdiv : (m + 1) / 10 < m + 1 := Nat.div_lt_self (Nat.succ_pos m) (by norm_num)
      exact congrArg _ (ih _ (by omega))

lemma natDigits_eq (n : Nat) : natDigits n = Nat.digits 10 n :=
  natDigitsAux_eq n n le_rfl

lemma charDigit_digitChar {d : Nat} (h : d < 10) : charDigit (digitChar d) = d := by
  interval_cases d <;> decide

lemma decode_natChars (n : Nat) : decodeChars (natChars n) = n := by
  unfold decodeChars natChars
  rw [List.map_reverse, List.reverse_reverse, List.map_map]
  have hmap : (natDigits n).map (charDigit ∘ digitChar) = natDigits n := by
    have : ∀ d ∈ natDigits n, (charDigit ∘ digitChar) d = id d := by
      intro d hd
      have hd10 : d < 10 := by
        rw [natDigits_eq] at hd
        exact Nat.digits_lt_base (by norm_num) hd
      simpa using charDigit_digitChar hd10
    rw [List.map_congr_left this, List.map_id]
  rw [hmap, natDigits_eq, Nat.ofDigits_digits]

lemma ofDigits_replicate_zero (k : Nat) : Nat.ofDigits 10 (List.replicate k 0) = 0 := by
  induction k with
  | zero => rfl
  | succ m ih => simp [List.replicate_succ, Nat.ofDigits_cons, ih]

lemma decode_append_zeros (k : Nat) (s : List Char) :
    decodeChars (List.replicate k '0' ++ s) = decodeChars s := by
  unfold decodeChars
  rw [List.map_append, List.reverse_append]
  have h0 : (List.replicate k '0').map charDigit = List.replicate k 0 := by
    rw [List.map_replicate]; rfl
  rw [h0, List.reverse_replicate, Nat.ofDigits_append, ofDigits_replicate_zero]
  simp

lemma decode_pyFormat03 (n : Nat) : decodeChars (pyFormat03 n) = n := by
  rw [pyFormat03, decode_append_zeros, pyFormat03Core]
  by_cases h : n = 0
  · subst h; simp; decide
  · simp [h, decode_natChars]

lemma mkId_injective : Function.Injective mkId := by
  intro a b h
  have hdata : 'E' :: pyFormat03 a = 'E' :: pyFormat03 b := congrArg String.data h
  have hfmt : pyFormat03 a = pyFormat03 b := (List.cons.inj hdata).2
  have := congrArg decodeChars hfmt
  rwa [decode_pyFormat03, decode_pyFormat03] at this

/-- The regular-expression check `E\d{3,}`: the letter E followed by at
least three decimal digit characters. -/
def matchesEPattern (s : String) : Bool :=
  match s.data with
  | 'E' :: rest => decide (3 ≤ rest.length) && rest.all Char.isDigit
  | _ => false

lemma digitChar_isDigit {d : Nat} (h : d < 10) : (digitChar d).isDigit = true := by
  interval_cases d <;> decide

lemma pyFormat03_all_digits (n : Nat) : (pyFormat03 n).all Char.isDigit = true := by
  rw [pyFormat03, List.all_append, Bool.and_eq_true]
  constructor
  · rw [List.all_eq_true]
    intro c hc
    rw [List.mem_replicate] at hc
    rw [hc.2]; decide
  · rw [pyFormat03Core]
    by_cases h : n = 0
    · simp [h]
    · simp only [h, if_false]
      rw [List.all_eq_true]
      intro c hc
      rw [natChars, List.mem_reverse, List.mem_map] at hc
      obtain ⟨d, hd, rfl⟩ := hc
      have hd10 : d < 10 := by
        rw [natDigits_eq] at hd
        exact Nat.digits_lt_base (by norm_num) hd
      exact digitChar_isDigit hd10

lemma pyFormat03_length (n : Nat) : 3 ≤ (pyFormat03 n).length := by
  rw [pyFormat03, List.length_append, List.length_replicate]
  omega

lemma mkId_matches (n : Nat) : matchesEPattern (mkId n) = true := by
  show (match ('E' :: pyFormat03 n : List Char) with
    | 'E' :: rest => decide (3 ≤ rest.length) && rest.all Char.isDigit
    | _ => false) = true
  simp only
  rw [Bool.and_eq_true, decide_eq_true_eq]
  exact ⟨pyFormat03_length n, pyFormat03_all_digits n⟩

/-! ### The evidence registry (`src/forens_core/evidence.py`) -/

/-- The record stored by `add_evidence`: the dict
`{"path": path, "open": True}` (`open_` stands for the Python key "open"). -/
structure EvRecord where
  path : String
  open_ : Bool
  deriving DecidableEq

/-- The module-level state of `evidence.py`: `_evidence_db` (a dict, embedded
as an association list in insertion order) and `_next_id`. -/
structure Registry where
  evidence_db : List (String × EvRecord)
  next_id : Nat
  deriving DecidableEq

/-- Initial module state: `_evidence_db = {}`, `_next_id = 1`. -/
def initRegistry : Registry := ⟨[], 1⟩

/-- Python dict assignment `db[k] = v`: replace the value at an existing
key in place, otherwise append the new binding at the end. -/
def dictInsert {α : Type} (k : String) (v : α) : List (String × α) → List (String × α)
  | [] => [(k, v)]
  | (k', v') :: rest =>
      if k == k' then (k', v) :: rest else (k', v') :: dictInsert k v rest

/-- `add_evidence(path)`: build the id `f"E{_next_id:03d}"`, store the record,
bump the counter, return the id (returned here with the new state). -/
def add_evidence (path : String) (s : Registry) : Registry × String :=
  (⟨dictInsert (mkId s.next_id) ⟨path, true⟩ s.evidence_db, s.next_id + 1⟩,
    mkId s.next_id)

/-- `resolve_evidence(eid)`: `_evidence_db.get(eid)`. -/
def resolve_evidence (eid : String) (s : Registry) : Option EvRecord :=
  List.lookup eid s.evidence_db

/-- The in-place record mutation `_evidence_db[eid]["open"] = False` acting
on one association-list entry. -/
def closeEntry (eid : String) (p : String × EvRecord) : String × EvRecord :=
  if p.1 == eid then (p.1, { p.2 with open_ := false }) else p

/-- `close_evidence(eid)`: if the id is a key of the dict, set the record's
"open" field to False and return True; otherwise return False. -/
def close_evidence (eid : String) (s : Registry) : Registry × Bool :=
  match List.lookup eid s.evidence_db with
  | some _ => ({ s with evidence_db := s.evidence_db.map (closeEntry eid) }, true)
  | none => (s, false)

/-- A registry operation: one call to `add_evidence` or `close_evidence`. -/
inductive RegOp
  | add (p : String)
  | close (eid : String)
  deriving DecidableEq

/-- Run a sequence of registry operations, collecting the identifiers
returned by the `add_evidence` calls in order. -/
def runOps : Registry → List RegOp → Registry × List String
  | s, [] => (s, [])
  | s, RegOp.add p :: ops =>
      ((runOps (add_evidence p s).1 ops).1,
        (add_evidence p s).2 :: (runOps (add_evidence p s).1 ops).2)
  | s, RegOp.close e :: ops => runOps (close_evidence e s).1 ops

def countAdds : List RegOp → Nat
  | [] => 0
  | RegOp.add _ :: ops => countAdds ops + 1
  | RegOp.close _ :: ops => countAdds ops

lemma close_next_id (e : String) (s : Registry) :
    (close_evidence e s).1.next_id = s.next_id := by
  rw [close_evidence]
  cases List.lookup e s.evidence_db <;> rfl

lemma runOps_next_id (ops : List RegOp) :
    ∀ s : Registry, (runOps s ops).1.next_id = s.next_id + countAdds ops := by
  induction ops with
  | nil => intro s; rfl
  | cons op ops ih =>
    intro s
    cases op with
    | add p =>
      rw [runOps, countAdds]
      have := ih (add_evidence p s).1
      rw [this]
      show s.next_id + 1 + countAdds ops = s.next_id + (countAdds ops + 1)
      omega
    | close e =>
      rw [runOps, countAdds, ih, close_next_id]

lemma runOps_ids (ops : List RegOp) :
    ∀ s : Registry, (runOps s ops).2 = (List.range' s.next_id (countAdds ops)).map mkId := by
  induction ops with
  | nil => intro s; rfl
  | cons op ops ih =>
    intro s
    cases op with
    | add p =>
      rw [runOps, countAdds]
      show mkId s.next_id :: (runOps (add_evidence p s).1 ops).2
          = (List.range' s.next_id (countAdds ops + 1)).map mkId
      rw [ih, List.range'_succ, List.map_cons]
      rfl
    | close e =>
      rw [runOps, countAdds, ih, close_next_id]

lemma lookup_dictInsert_self {α : Type} (k : String) (v : α) (db : List (String × α)) :
    List.lookup k (dictInsert k v db) = some v := by
  induction db with
  | nil => simp [dictInsert, List.lookup]
  | cons p rest ih =>
    obtain ⟨k', v'⟩ := p
    rw [dictInsert]
    by_cases h : k = k'
    · simp [h, List.lookup]
    · have hb : (k == k') = false := by simp [h]
      rw [hb]
      simp only [Bool.false_eq_true, if_false]
      rw [List.lookup, hb, ih]


lemma lookup_cons_eq {α : Type} (k k' : String) (v : α) (rest : List (String × α)) :
    List.lookup k ((k', v) :: rest) = if k = k' then some v else List.lookup k rest := by
  by_cases h : k = k'
  · simp [List.lookup, h]
  · have hb : (k == k') = false := by simp [h]
    simp [List.lookup, hb, h]

lemma closeEntry_eq (eid : String) (p : String × EvRecord) :
    closeEntry eid p = if p.1 = eid then (p.1, ⟨p.2.path, false⟩) else p := by
  by_cases h : p.1 = eid
  · have hb : (p.1 == eid) = true := by simp [h]
    simp [closeEntry, hb, h]
  · have hb : (p.1 == eid) = false := by simp [h]
    simp [closeEntry, hb, h]

lemma closeEntry_idem (eid : String) (p : String × EvRecord) :
    closeEntry eid (closeEntry eid p) = closeEntry eid p := by
  by_cases h : p.1 = eid <;> simp [closeEntry_eq, h]

lemma lookup_map_closeEntry (eid k : String) :
    ∀ db : List (String × EvRecord),
      List.lookup k (db.map (closeEntry eid))
        = if k = eid then (List.lookup k db).map (fun r => ⟨r.path, false⟩)
          else List.lookup k db := by
  intro db
  induction db with
  | nil => by_cases h : k = eid <;> simp [h, List.lookup]
  | cons p rest ih =>
    obtain ⟨k', v'⟩ := p
    by_cases hk'e : k' = eid <;> by_cases hkk : k = k'
    · have hke : k = eid := hkk.trans hk'e
      simp [List.map_cons, closeEntry_eq, lookup_cons_eq, hkk, hk'e, hke]
    · have hke : k ≠ eid := fun h => hkk (h.trans hk'e.symm)
      simp [List.map_cons, closeEntry_eq, lookup_cons_eq, hkk, hk'e, hke, ih]
    · have hke : k ≠ eid := fun h => hk'e (hkk.symm.trans h)
      simp [List.map_cons, closeEntry_eq, lookup_cons_eq, hkk, hk'e, hke]
    · simp [List.map_cons, closeEntry_eq, lookup_cons_eq, hkk, hk'e, ih]

lemma close_evidence_fst (eid : String) (s : Registry) :
    (close_evidence eid s).1
      = if (List.lookup eid s.evidence_db).isSome
        then { s with evidence_db := s.evidence_db.map (closeEntry eid) }
        else s := by
  rw [close_evidence]
  cases List.lookup eid s.evidence_db <;> simp

/-- Claim C4: for every path `p`, registering evidence returns an identifier
that no previous registration in the history returned, and resolving that
identifier immediately afterwards (from any registry state) yields a record
with `open = true` and the registered path. -/
theorem claim_C4 :
    (∀ (ops : List RegOp) (p : String),
        (add_evidence p (runOps initRegistry ops).1).2 ∉ (runOps initRegistry ops).2)
    ∧ (∀ (s : Registry) (p : String),
        resolve_evidence (add_evidence p s).2 (add_evidence p s).1
          = some ⟨p, true⟩) := by
  constructor
  · intro ops p hmem
    rw [runOps_ids ops initRegistry] at hmem
    have hmem' : mkId ((runOps initRegistry ops).1.next_id)
        ∈ (List.range' initRegistry.next_id (countAdds ops)).map mkId := hmem
    rw [List.mem_map] at hmem'
    obtain ⟨j, hj, hEq⟩ := hmem'
    have hjeq : j = (runOps initRegistry ops).1.next_id := mkId_injective hEq
    have hnid : (runOps initRegistry ops).1.next_id = 1 + countAdds ops := by
      rw [runOps_next_id]
      show initRegistry.next_id + countAdds ops = 1 + countAdds ops
      rfl
    rw [List.mem_range'_1] at hj
    have h1 : initRegistry.next_id = 1 := rfl
    omega
  · intro s p
    show List.lookup (mkId s.next_id)
        (dictInsert (mkId s.next_id) ⟨p, true⟩ s.evidence_db) = some ⟨p, true⟩
    exact lookup_dictInsert_self _ _ _

/-- Claim C5: closing a known identifier returns true and a subsequent
resolve shows the record closed; closing an unknown identifier returns false
and leaves the registry unchanged; closing an already-closed record still
returns true and causes no further state change. -/
theorem claim_C5 :
    (∀ (s : Registry) (eid : String) (r : EvRecord),
        resolve_evidence eid s = some r →
        (close_evidence eid s).2 = true
          ∧ resolve_evidence eid (close_evidence eid s).1 = some ⟨r.path, false⟩)
    ∧ (∀ (s : Registry) (eid : String),
        resolve_evidence eid s = none → close_evidence eid s = (s, false))
    ∧ (∀ (s : Registry) (eid : String) (r : EvRecord),
        resolve_evidence eid s = some r →
        close_evidence eid (close_evidence eid s).1
          = ((close_evidence eid s).1, true)) := by
  refine ⟨?_, ?_, ?_⟩
  · intro s eid r h
    rw [resolve_evidence] at h
    constructor
    · rw [close_evidence, h]
    · rw [resolve_evidence, close_evidence_fst, h]
      simp only [Option.isSome_some, if_true]
      show List.lookup eid (s.evidence_db.map (closeEntry eid)) = _
      rw [lookup_map_closeEntry, if_pos rfl, h]
      rfl
  · intro s eid h
    rw [resolve_evidence] at h
    rw [close_evidence, h]
  · intro s eid r h
    rw [resolve_evidence] at h
    have h1 : (close_evidence eid s).1
        = { s with evidence_db := s.evidence_db.map (closeEntry eid) } := by
      rw [close_evidence_fst, h]
      rfl
    have h2 : List.lookup eid (s.evidence_db.map (closeEntry eid))
        = some ⟨r.path, false⟩ := by
      rw [lookup_map_closeEntry, if_pos rfl, h]
      rfl
    rw [h1, close_evidence]
    simp only [h2]
    have h3 : (s.evidence_db.map (closeEntry eid)).map (closeEntry eid)
        = s.evidence_db.map (closeEntry eid) := by
      rw [List.map_map]
      apply List.map_congr_left
      intro a _
      exact closeEntry_idem eid a
    simp [h3]

/-- Claim C6: over any history of registrations and closes, the identifiers
returned by `add_evidence` are exactly `E` plus the zero-padded values of the
monotonically increasing counter, each matches the pattern `E\d{3,}`, and no
identifier is ever repeated (closing never causes reuse). -/
theorem claim_C6 :
    ∀ ops : List RegOp,
      (runOps initRegistry ops).2 = (List.range' 1 (countAdds ops)).map mkId
      ∧ (runOps initRegistry ops).2.Nodup
      ∧ ∀ i ∈ (runOps initRegistry ops).2, matchesEPattern i = true := by
  intro ops
  have h : (runOps initRegistry ops).2
      = (List.range' 1 (countAdds ops)).map mkId := runOps_ids ops initRegistry
  refine ⟨h, ?_, ?_⟩
  · rw [h]
    exact (List.nodup_range' 1 (countAdds ops) 1 (by norm_num)).map mkId_injective
  · intro i hi
    rw [h, List.mem_map] at hi
    obtain ⟨j, _, rfl⟩ := hi
    exact mkId_matches j

/-- Witness for claim C6 at the concrete history add, close, add. -/
theorem claim_C6_witness :
    (runOps initRegistry [RegOp.add "/a", RegOp.close "E001", RegOp.add "/b"]).2
        = ["E001", "E002"]
      ∧ matchesEPattern "E001" = true := by
  have h := claim_C6 [RegOp.add "/a", RegOp.close "E001", RegOp.add "/b"]
  exact ⟨h.1.trans (by decide), h.2.2 "E001" (by decide)⟩

/-- Witness for claim C5 at a concrete one-record registry. -/
theorem claim_C5_witness :
    ((close_evidence "E001" (add_evidence "/tmp/a.raw" initRegistry).1).2 = true
      ∧ resolve_evidence "E001"
          (close_evidence "E001" (add_evidence "/tmp/a.raw" initRegistry).1).1
          = some ⟨"/tmp/a.raw", false⟩)
    ∧ close_evidence "E003" (add_evidence "/tmp/a.raw" initRegistry).1
        = ((add_evidence "/tmp/a.raw" initRegistry).1, false)
    ∧ close_evidence "E001"
          (close_evidence "E001" (add_evidence "/tmp/a.raw" initRegistry).1).1
        = ((close_evidence "E001" (add_evidence "/tmp/a.raw" initRegistry).1).1, true) := by
  refine ⟨claim_C5.1 _ _ ⟨"/tmp/a.raw", true⟩ (by decide),
    claim_C5.2.1 _ _ (by decide),
    claim_C5.2.2 _ _ ⟨"/tmp/a.raw", true⟩ (by decide)⟩

/-- Claim C9: closing an identifier changes at most the `open` flag of the
record under that identifier — every other key resolves unchanged, the path
under the closed identifier is preserved, and the counter is untouched. -/
theorem claim_C9 :
    (∀ (s : Registry) (eid k : String), k ≠ eid →
        resolve_evidence k (close_evidence eid s).1 = resolve_evidence k s)
    ∧ (∀ (s : Registry) (eid : String),
        (resolve_evidence eid (close_evidence eid s).1).map EvRecord.path
          = (resolve_evidence eid s).map EvRecord.path)
    ∧ (∀ (s : Registry) (eid : String),
        (close_evidence eid s).1.next_id = s.next_id) := by
  refine ⟨?_, ?_, fun s eid => close_next_id eid s⟩
  · intro s eid k hk
    rw [resolve_evidence, resolve_evidence, close_evidence_fst]
    cases hls : (List.lookup eid s.evidence_db).isSome
    · simp
    · simp only [if_true]
      show List.lookup k (s.evidence_db.map (closeEntry eid)) = _
      rw [lookup_map_closeEntry, if_neg hk]
  · intro s eid
    rw [resolve_evidence, resolve_evidence, close_evidence_fst]
    cases hls : (List.lookup eid s.evidence_db).isSome
    · simp
    · simp only [if_true]
      show (List.lookup eid (s.evidence_db.map (closeEntry eid))).map EvRecord.path = _
      rw [lookup_map_closeEntry, if_pos rfl]
      cases List.lookup eid s.evidence_db <;> rfl

/-- Witness for claim C9 at a concrete two-record registry. -/
theorem claim_C9_witness :
    resolve_evidence "E002"
        (close_evidence "E001"
          (add_evidence "/b" (add_evidence "/a" initRegistry).1).1).1
      = resolve_evidence "E002" (add_evidence "/b" (add_evidence "/a" initRegistry).1).1
    ∧ (resolve_evidence "E001"
          (close_evidence "E001"
            (add_evidence "/b" (add_evidence "/a" initRegistry).1).1).1).map EvRecord.path
        = (resolve_evidence "E001"
            (add_evidence "/b" (add_evidence "/a" initRegistry).1).1).map EvRecord.path
    ∧ (close_evidence "E001"
          (add_evidence "/b" (add_evidence "/a" initRegistry).1).1).1.next_id
        = (add_evidence "/b" (add_evidence "/a" initRegistry).1).1.next_id :=
  ⟨claim_C9.1 _ "E001" "E002" (by decide), claim_C9.2.1 _ "E001", claim_C9.2.2 _ "E001"⟩

/-! ### The webapp (`webapp/app.py`) -/

/-- Directory entry dict returned by `get_directory_contents`. -/
structure DirEntry where
  name : String
  is_directory : Bool
  inode_number : Int
  size : String
  accessed : String
  modified : String
  created : String
  changed : String
  deriving DecidableEq

/-- Carved-file dict returned by `carve_files_by_type`. -/
structure CarvedFile where
  name : String
  path : String
  size : String
  inode : Int
  type : String
  extension : String
  description : String
  accessed : String
  modified : String
  created : String
  changed : String
  deriving DecidableEq

/-- Search-result dict returned by `search_files`. -/
structure SearchResult where
  name : String
  path : String
  size : String
  accessed : String
  modified : String
  created : String
  changed : String
  inode_item : String
  deriving DecidableEq

/-- Result dict of `detect_file_type`. -/
structure FileTypeInfo where
  type : String
  extension : String
  description : String
  deriving DecidableEq

/-- An image handler object: the duck-typed interface shared by the real
`ImageHandler` (external to this repository) and `DemoImageHandler`.  File
content is a list of byte values; `get_file_content` returns the pair
(content-or-None, metadata). -/
structure Handler where
  image_path : String
  get_partitions : List (Int × String × Int × Int)
  is_wiped : Bool
  get_directory_contents : Int → Option Int → List DirEntry
  get_file_content : Int → Int → Option (List Nat) × Option Unit
  detect_file_type : List Nat → FileTypeInfo
  carve_files_by_type : String → List CarvedFile
  search_files : String → List SearchResult

/-- ASCII byte values of a string literal (the demo byte literals are pure
ASCII). -/
def strBytes (s : String) : List Nat := s.data.map Char.toNat

/-- `DemoImageHandler(image_path)`: the synthetic backend of app.py. -/
def DemoImageHandler (image_path : String) : Handler where
  image_path := image_path
  get_partitions := [(1, "Demo Partition", 2048, 1000000)]
  is_wiped := false
  get_directory_contents := fun _ _ =>
    [ { name := "demo_file.txt", is_directory := false, inode_number := 12345,
        size := "1.2 KB", accessed := "2024-01-01 12:00:00 UTC",
        modified := "2024-01-01 12:00:00 UTC", created := "2024-01-01 12:00:00 UTC",
        changed := "2024-01-01 12:00:00 UTC" },
      { name := "demo_folder", is_directory := true, inode_number := 12346,
        size := "0 B", accessed := "2024-01-01 12:00:00 UTC",
        modified := "2024-01-01 12:00:00 UTC", created := "2024-01-01 12:00:00 UTC",
        changed := "2024-01-01 12:00:00 UTC" } ]
  get_file_content := fun _ _ =>
    (some (strBytes "This is a demo file content for testing purposes."), none)
  detect_file_type := fun _ => ⟨"text", "txt", "Text File"⟩
  carve_files_by_type := fun _ =>
    [ { name := "demo_carved_file.txt", path := "/demo_carved_file.txt",
        size := "512 B", inode := 12347, type := "text", extension := "txt",
        description := "Text File", accessed := "2024-01-01 12:00:00 UTC",
        modified := "2024-01-01 12:00:00 UTC", created := "2024-01-01 12:00:00 UTC",
        changed := "2024-01-01 12:00:00 UTC" } ]
  search_files := fun query =>
    [ { name := "demo_search_" ++ query ++ ".txt",
        path := "/demo_search_" ++ query ++ ".txt", size := "256 B",
        accessed := "2024-01-01 12:00:00 UTC", modified := "2024-01-01 12:00:00 UTC",
        created := "2024-01-01 12:00:00 UTC", changed := "2024-01-01 12:00:00 UTC",
        inode_item := "12348" } ]

/-- Digit-string parser backing the embedding of Python `int(str)`. -/
def parseNatChars (cs : List Char) : Option Nat :=
  if cs ≠ [] ∧ cs.all Char.isDigit then
    some (cs.foldl (fun a c => a * 10 + (c.toNat - 48)) 0)
  else none

/-- Embedding of Python `int(s)` on strings: an optional sign followed by
decimal digits; any other input raises ValueError (here `none`). -/
def pyInt (s : String) : Option Int :=
  match s.data with
  | '-' :: rest => (parseNatChars rest).map (fun n => -(n : Int))
  | '+' :: rest => (parseNatChars rest).map (fun n => (n : Int))
  | cs => (parseNatChars cs).map (fun n => (n : Int))

/-- The webapp's in-memory `image_handlers` dict, keyed by token. -/
abbrev SessionTable := List (String × Handler)

/-- `image_handlers.get(token)` where the token query parameter may be
absent (`None`), which never matches a string key. -/
def lookupToken (table : SessionTable) (token : Option String) : Option Handler :=
  match token with
  | none => none
  | some t => List.lookup t table

/-- Failure modes of the query services: the invalid-token 400 response, the
not-found 404 response, and the uncaught Python exceptions ValueError
(`int()` on a malformed string) and TypeError (`int(None)`). -/
inductive ApiError
  | invalidToken
  | notFound
  | valueError
  | typeError
  deriving DecidableEq

/-- Query parameters of `/api/list` as raw strings (absent = `None`). -/
structure ListReq where
  token : Option String
  start_offset : Option String
  inode : Option String
  deriving DecidableEq

/-- `api_list`: parse `start_offset` (default "0") and the optional `inode`
with `int()`, then validate the token, then list the directory. -/
def api_list (table : SessionTable) (req : ListReq) :
    Except ApiError (List DirEntry) := do
  let start_offset ← match pyInt (req.start_offset.getD "0") with
    | some n => pure n
    | none => throw ApiError.valueError
  let inode_num ← match req.inode with
    | some s =>
      match pyInt s with
      | some n => pure (some n)
      | none => throw ApiError.valueError
    | none => pure (none : Option Int)
  match lookupToken table req.token with
  | none => throw ApiError.invalidToken
  | some handler => pure (handler.get_directory_contents start_offset inode_num)

/-- Query parameters of `/api/file` as raw strings (absent = `None`). -/
structure FileReq where
  token : Option String
  inode : Option String
  start_offset : Option String
  deriving DecidableEq

/-- Successful `/api/file` response: the served bytes with the download
name `f"inode_{inode}.bin"`. -/
structure FileResp where
  content : List Nat
  download_name : String
  deriving DecidableEq

/-- `api_file`: parse `inode` with `int()` (TypeError when the parameter is
absent), parse `start_offset`, validate the token, read the content, and
404 when the handler returns `None`. -/
def api_file (table : SessionTable) (req : FileReq) : Except ApiError FileResp := do
  let inode ← match req.inode with
    | none => throw ApiError.typeError
    | some s =>
      match pyInt s with
      | some n => pure n
      | none => throw ApiError.valueError
  let start_offset ← match pyInt (req.start_offset.getD "0") with
    | some n => pure n
    | none => throw ApiError.valueError
  match lookupToken table req.token with
  | none => throw ApiError.invalidToken
  | some handler =>
    match (handler.get_file_content inode start_offset).1 with
    | none => throw ApiError.notFound
    | some content => pure ⟨content, "inode_" ++ intStr inode ++ ".bin"⟩

/-- `api_carve`: token and type come from the JSON body, the type defaulting
to "all"; the token is checked before carving. -/
def api_carve (table : SessionTable) (token : Option String)
    (ftype : Option String) : Except ApiError (List CarvedFile) :=
  match lookupToken table token with
  | none => Except.error ApiError.invalidToken
  | some handler => Except.ok (handler.carve_files_by_type (ftype.getD "all"))

/-- The rendered `/search` page: token, results and the echoed query. -/
structure SearchPage where
  token : Option String
  results : List SearchResult
  query : String
  deriving DecidableEq

/-- `search`: the query defaults to the empty string; an unknown token gets
the JSON 400 error. -/
def search (table : SessionTable) (token : Option String) (q : Option String) :
    Except ApiError SearchPage :=
  match lookupToken table token with
  | none => Except.error ApiError.invalidToken
  | some handler => Except.ok ⟨token, handler.search_files (q.getD ""), q.getD ""⟩

/-- Lower-case hexadecimal digit character, as in Python `bytes.hex()`. -/
def hexDigitChar (d : Nat) : Char :=
  if d < 10 then Char.ofNat (48 + d) else Char.ofNat (87 + d)

/-- Embedding of Python `bytes.hex()`: two lowercase hex digits per byte. -/
def bytesHex (l : List Nat) : List Char :=
  l.flatMap (fun b => [hexDigitChar (b / 16), hexDigitChar (b % 16)])

def isCont (b : Nat) : Bool := 128 ≤ b && b ≤ 191

/-- Strict UTF-8 decoding of byte values to code points, fuel-indexed so the
definition is structurally recursive and evaluates inside the kernel.  It
rejects truncated sequences, stray continuation bytes, overlong encodings,
surrogates (U+D800–U+DFFF) and values beyond U+10FFFF, exactly as Python
`bytes.decode('utf-8')` does. -/
def utf8DecodeAux : Nat → List Nat → Option (List Nat)
  | _, [] => some []
  | 0, _ :: _ => none
  | fuel + 1, b :: rest =>
    if b < 128 then
      (utf8DecodeAux fuel rest).map (fun cs => b :: cs)
    else if 194 ≤ b && b ≤ 223 then
      match rest with
      | b1 :: r =>
        if isCont b1 then
          (utf8DecodeAux fuel r).map (fun cs => ((b - 192) * 64 + (b1 - 128)) :: cs)
        else none
      | [] => none
    else if 224 ≤ b && b ≤ 239 then
      match rest with
      | b1 :: b2 :: r =>
        if (if b = 224 then 160 ≤ b1 && b1 ≤ 191
            else if b = 237 then 128 ≤ b1 && b1 ≤ 159
            else isCont b1) && isCont b2 then
          (utf8DecodeAux fuel r).map
            (fun cs => ((b - 224) * 4096 + (b1 - 128) * 64 + (b2 - 128)) :: cs)
        else none
      | _ => none
    else if 240 ≤ b && b ≤ 244 then
      match rest with
      | b1 :: b2 :: b3 :: r =>
        if (if b = 240 then 144 ≤ b1 && b1 ≤ 191
            else if b = 244 then 128 ≤ b1 && b1 ≤ 143
            else isCont b1) && isCont b2 && isCont b3 then
          (utf8DecodeAux fuel r).map
            (fun cs => ((b - 240) * 262144 + (b1 - 128) * 4096
              + (b2 - 128) * 64 + (b3 - 128)) :: cs)
        else none
      | _ => none
    else none

/-- `content.decode('utf-8')` under strict error handling: the decoded code
points, or `none` for UnicodeDecodeError. -/
def utf8Decode (l : List Nat) : Option (List Nat) := utf8DecodeAux l.length l

/-- The rendered `view_file.html` context; `content` holds the code points
of the displayed string (decoded text, or the hex dump). -/
structure ViewPage where
  token : String
  inode : Nat
  content : List Nat
  is_text : Bool
  file_size : Nat
  deriving DecidableEq

/-- Responses of `/view/<token>/<int:inode>`. -/
inductive ViewResp
  | toIndex
  | toBrowse (token : String)
  | page (p : ViewPage)
  deriving DecidableEq

/-- `view_file`: parse `start_offset`, resolve the token (redirecting to the
index page when the session is unknown), read the content (redirecting back
to browsing on `None`), then classify: if strict UTF-8 decoding succeeds the
content is shown as text, otherwise the first 1000 bytes are shown as hex
(`content[:1000].hex()`). -/
def view_file (table : SessionTable) (token : String) (inode : Nat)
    (start_offset_raw : Option String) : Except ApiError ViewResp := do
  let start_offset ← match pyInt (start_offset_raw.getD "0") with
    | some n => pure n
    | none => throw ApiError.valueError
  match List.lookup token table with
  | none => pure ViewResp.toIndex
  | some handler =>
    match (handler.get_file_content (Int.ofNat inode) start_offset).1 with
    | none => pure (ViewResp.toBrowse token)
    | some content =>
      match utf8Decode content with
      | some cps =>
        pure (ViewResp.page ⟨token, inode, cps, true, content.length⟩)
      | none =>
        pure (ViewResp.page
          ⟨token, inode, (bytesHex (content.take 1000)).map Char.toNat, false,
            content.length⟩)

/-- The literal `ALLOWED_EXTENSIONS` set of app.py, in source order. -/
def ALLOWED_EXTENSIONS : List String :=
  [".e01", ".E01", ".s01", ".S01", ".l01", ".L01", ".raw", ".RAW", ".img",
   ".IMG", ".dd", ".DD", ".iso", ".ISO", ".ad1", ".AD1", ".001", ".ex01",
   ".dmg", ".sparse", ".sparseimage"]

/-- Characters after the last '/' (the final path component). -/
def afterLastSep (cs : List Char) : List Char :=
  cs.foldl (fun acc c => if c = '/' then [] else acc ++ [c]) []

/-- Extension as computed by `os.path.splitext(filename)[1]`: the suffix
from the last dot of the final component, provided some earlier character of
that component is not a dot (so dotfiles such as ".bashrc" have none). -/
def splitextExt (filename : String) : String :=
  let base := afterLastSep filename.data
  match base.reverse.findIdx? (fun c => c = '.') with
  | none => ""
  | some kRev =>
    let i := base.length - 1 - kRev
    if (base.take i).any (fun c => c ≠ '.') then ⟨base.drop i⟩ else ""

/-- `allowed_file(filename)`: membership of the splitext extension in the
literal extension set. -/
def allowed_file (filename : String) : Bool :=
  ALLOWED_EXTENSIONS.contains (splitextExt filename)

/-- `os.path.basename`. -/
def basename (p : String) : String := ⟨afterLastSep p.data⟩

/-- Outcome of the external `ImageHandler(saved_path)` constructor: success,
an ImportError (missing parsing backend), or any other exception. -/
inductive ConstructOutcome
  | ok (handler : Handler)
  | importError (msg : String)
  | otherError (msg : String)

/-- Response of the upload route. -/
inductive UploadResp
  | redirectIndex
  | redirectBrowse (token : String)
  deriving DecidableEq

/-- State and messages produced by one upload request. -/
structure UploadOutcome where
  image_handlers : SessionTable
  flashes : List String
  response : UploadResp

/-- The `try/except` part of `upload`, after transport validation has saved
the file: construct the handler and store it under the basename token; on
ImportError flash the demo-mode warning and substitute `DemoImageHandler`;
on any other exception flash the error and redirect to the index page
without touching the session table. -/
def upload (ctor : String → ConstructOutcome) (saved_path : String)
    (table : SessionTable) : UploadOutcome :=
  match ctor saved_path with
  | ConstructOutcome.ok handler =>
    ⟨dictInsert (basename saved_path) handler table, [],
      UploadResp.redirectBrowse (basename saved_path)⟩
  | ConstructOutcome.importError e =>
    ⟨dictInsert (basename saved_path) (DemoImageHandler saved_path) table,
      ["Forensic libraries not installed. Running in demo mode. Error: " ++ e],
      UploadResp.redirectBrowse (basename saved_path)⟩
  | ConstructOutcome.otherError e =>
    ⟨table, ["Error processing image: " ++ e], UploadResp.redirectIndex⟩

deriving instance DecidableEq for Except

lemma except_throw_eq {ε α : Type} (e : ε) : (throw e : Except ε α) = Except.error e := rfl

lemma except_pure_eq {ε α : Type} (a : α) : (pure a : Except ε α) = Except.ok a := rfl

lemma except_ok_bind {ε α β : Type} (a : α) (f : α → Except ε β) :
    (Except.ok a >>= f : Except ε β) = f a := rfl

/-- Claim C1 counterexample: with an empty session table — so the token
"ghost" is not a key — `api_list` called with the malformed start_offset
"abc" raises ValueError (an error unrelated to token validation) instead of
failing with the invalid-token error, because `int()` runs before the token
is checked. -/
theorem claim_C1_counterexample :
    lookupToken [] (some "ghost") = none
    ∧ api_list [] ⟨some "ghost", some "abc", none⟩ = Except.error ApiError.valueError
    ∧ ApiError.valueError ≠ ApiError.invalidToken :=
  ⟨rfl, by decide, by decide⟩

/-- Claim C1 amended: for every token not in the session table, the four
query services fail with the invalid-token error provided their integer
parameters parse — for `list`, `start_offset` (default "0") parses and
`inode` is absent or parses; for `read`, `inode` is present and parses and
`start_offset` parses; `carve` and `search` fail with the invalid-token
error for every choice of the other parameters. -/
theorem claim_C1_amended (table : SessionTable) (tok : Option String)
    (htok : lookupToken table tok = none) :
    (∀ (soRaw inodeRaw : Option String) (off : Int),
        pyInt (soRaw.getD "0") = some off →
        (inodeRaw = none ∨ ∃ s n, inodeRaw = some s ∧ pyInt s = some n) →
        api_list table ⟨tok, soRaw, inodeRaw⟩ = Except.error ApiError.invalidToken)
    ∧ (∀ (soRaw : Option String) (s : String) (n off : Int),
        pyInt s = some n → pyInt (soRaw.getD "0") = some off →
        api_file table ⟨tok, some s, soRaw⟩ = Except.error ApiError.invalidToken)
    ∧ (∀ ftype : Option String,
        api_carve table tok ftype = Except.error ApiError.invalidToken)
    ∧ (∀ q : Option String,
        search table tok q = Except.error ApiError.invalidToken) := by
  refine ⟨?_, ?_, ?_, ?_⟩
  · intro soRaw inodeRaw off hso hin
    rcases hin with hnone | ⟨s, n, hse, hsn⟩
    · subst hnone
      simp [api_list, hso, htok, except_throw_eq, except_pure_eq, except_ok_bind]
    · subst hse
      simp [api_list, hso, hsn, htok, except_throw_eq, except_pure_eq, except_ok_bind]
  · intro soRaw s n off hs hso
    simp [api_file, hs, hso, htok, except_throw_eq, except_pure_eq, except_ok_bind]
  · intro ftype
    simp [api_carve, htok]
  · intro q
    simp [search, htok]

/-- Witness for the amended claim C1 on the empty session table. -/
theorem claim_C1_witness :
    api_list [] ⟨some "ghost", none, none⟩ = Except.error ApiError.invalidToken
    ∧ api_file [] ⟨some "ghost", some "7", none⟩ = Except.error ApiError.invalidToken
    ∧ api_carve [] (some "ghost") none = Except.error ApiError.invalidToken
    ∧ search [] (some "ghost") none = Except.error ApiError.invalidToken := by
  have h := claim_C1_amended [] (some "ghost") rfl
  exact ⟨h.1 none none 0 (by decide) (Or.inl rfl),
    h.2.1 none "7" 7 0 (by decide) (by decide), h.2.2.1 none, h.2.2.2 none⟩

/-- Claim C2: when the external handler constructor raises ImportError the
upload substitutes `DemoImageHandler`, flashes the demo-mode warning, and
still issues the basename token mapped to the demo handler; on any other
constructor error the session table is untouched and the request is sent
back to the index page. -/
theorem claim_C2 :
    (∀ (ctor : String → ConstructOutcome) (saved_path : String)
        (table : SessionTable) (e : String),
        ctor saved_path = ConstructOutcome.importError e →
        upload ctor saved_path table
          = ⟨dictInsert (basename saved_path) (DemoImageHandler saved_path) table,
              ["Forensic libraries not installed. Running in demo mode. Error: " ++ e],
              UploadResp.redirectBrowse (basename saved_path)⟩
          ∧ lookupToken (upload ctor saved_path table).image_handlers
              (some (basename saved_path)) = some (DemoImageHandler saved_path))
    ∧ (∀ (ctor : String → ConstructOutcome) (saved_path : String)
        (table : SessionTable) (e : String),
        ctor saved_path = ConstructOutcome.otherError e →
        (upload ctor saved_path table).image_handlers = table
          ∧ (upload ctor saved_path table).response = UploadResp.redirectIndex) := by
  constructor
  · intro ctor saved_path table e h
    have hu : upload ctor saved_path table
        = ⟨dictInsert (basename saved_path) (DemoImageHandler saved_path) table,
            ["Forensic libraries not installed. Running in demo mode. Error: " ++ e],
            UploadResp.redirectBrowse (basename saved_path)⟩ := by
      rw [upload, h]
    refine ⟨hu, ?_⟩
    rw [hu]
    show List.lookup (basename saved_path)
        (dictInsert (basename saved_path) (DemoImageHandler saved_path) table) = _
    exact lookup_dictInsert_self _ _ _
  · intro ctor saved_path table e h
    constructor <;> rw [upload, h]

/-- Witness for claim C2 with concrete constructor outcomes. -/
theorem claim_C2_witness :
    (upload (fun _ => ConstructOutcome.importError "No module named pytsk3")
        "/up/disk.img" []
        = ⟨[("disk.img", DemoImageHandler "/up/disk.img")],
            ["Forensic libraries not installed. Running in demo mode. Error: No module named pytsk3"],
            UploadResp.redirectBrowse "disk.img"⟩
      ∧ lookupToken
          (upload (fun _ => ConstructOutcome.importError "No module named pytsk3")
            "/up/disk.img" []).image_handlers (some "disk.img")
          = some (DemoImageHandler "/up/disk.img"))
    ∧ ((upload (fun _ => ConstructOutcome.otherError "bad image")
          "/up/disk.img" []).image_handlers = ([] : SessionTable)
      ∧ (upload (fun _ => ConstructOutcome.otherError "bad image")
          "/up/disk.img" []).response = UploadResp.redirectIndex) :=
  ⟨claim_C2.1 (fun _ => ConstructOutcome.importError "No module named pytsk3")
      "/up/disk.img" [] "No module named pytsk3" rfl,
    claim_C2.2 (fun _ => ConstructOutcome.otherError "bad image")
      "/up/disk.img" [] "bad image" rfl⟩

/-- Claim C3: for every byte string returned as content by a resolvable
handler, `view_file` classifies it by strict UTF-8 decoding of the full
content: on success the page is flagged as text and shows the decoded code
points; on failure it is flagged as binary and shows the hexadecimal
encoding of exactly the first 1000 bytes (the whole content when shorter). -/
theorem claim_C3 (table : SessionTable) (token : String) (inode : Nat)
    (soRaw : Option String) (off : Int) (handler : Handler)
    (content : List Nat) (meta : Option Unit)
    (htok : List.lookup token table = some handler)
    (hso : pyInt (soRaw.getD "0") = some off)
    (hc : handler.get_file_content (inode : Int) off = (some content, meta)) :
    (∀ cps, utf8Decode content = some cps →
        view_file table token inode soRaw
          = Except.ok (ViewResp.page ⟨token, inode, cps, true, content.length⟩))
    ∧ (utf8Decode content = none →
        view_file table token inode soRaw
          = Except.ok (ViewResp.page
              ⟨token, inode, (bytesHex (content.take 1000)).map Char.toNat, false,
                content.length⟩)) := by
  constructor
  · intro cps hdec
    simp [view_file, hso, htok, hc, hdec, except_throw_eq, except_pure_eq, except_ok_bind]
  · intro hdec
    simp [view_file, hso, htok, hc, hdec, except_throw_eq, except_pure_eq, except_ok_bind]

/-- A handler whose file content is not valid UTF-8 (witness fixture). -/
def binHandler : Handler where
  image_path := "/up/bin.img"
  get_partitions := []
  is_wiped := false
  get_directory_contents := fun _ _ => []
  get_file_content := fun _ _ => (some [255, 216, 255], none)
  detect_file_type := fun _ => ⟨"unknown", "", "Unknown"⟩
  carve_files_by_type := fun _ => []
  search_files := fun _ => []

/-- Witness for claim C3: the demo ASCII content decodes as text, and an
invalid byte sequence falls back to the hex dump. -/
theorem claim_C3_witness :
    view_file [("img1.raw", DemoImageHandler "/tmp/img1.raw")] "img1.raw" 12345 none
      = Except.ok (ViewResp.page
          ⟨"img1.raw", 12345,
            strBytes "This is a demo file content for testing purposes.", true, 49⟩)
    ∧ view_file [("bin", binHandler)] "bin" 7 none
      = Except.ok (ViewResp.page ⟨"bin", 7, strBytes "ffd8ff", false, 3⟩) := by
  constructor
  · exact (claim_C3 [("img1.raw", DemoImageHandler "/tmp/img1.raw")] "img1.raw" 12345
      none 0 (DemoImageHandler "/tmp/img1.raw")
      (strBytes "This is a demo file content for testing purposes.") none
      rfl (by decide) rfl).1 _ (by decide)
  · exact (claim_C3 [("bin", binHandler)] "bin" 7 none 0 binHandler [255, 216, 255] none
      rfl (by decide) rfl).2 (by decide)

/-- The thirteen extensions listed by the spec, lower-case. -/
def specListedExtensions : List String :=
  [".e01", ".s01", ".l01", ".raw", ".img", ".dd", ".iso", ".ad1", ".001",
   ".ex01", ".dmg", ".sparse", ".sparseimage"]

/-- ASCII lower-casing (Python `str.lower()` on ASCII input). -/
def lowerStr (s : String) : String := ⟨s.data.map Char.toLower⟩

/-- Case-insensitive acceptance as the spec words it (this definition
follows the spec's words, for comparison with the code's `allowed_file`). -/
def allowedSpecCaseInsensitive (filename : String) : Bool :=
  specListedExtensions.contains (lowerStr (splitextExt filename))

/-- Claim C7 counterexample: ".DMG" equals the listed ".dmg"
case-insensitively, yet `allowed_file` rejects "a.DMG" — the code's check is
not case-insensitive. -/
theorem claim_C7_counterexample :
    allowed_file "a.DMG" = false ∧ allowedSpecCaseInsensitive "a.DMG" = true := by
  decide

/-- Claim C7 amended: `allowed_file` accepts a filename iff its splitext
extension is literally one of the 21 strings in `ALLOWED_EXTENSIONS`; every
lower-case listed extension is accepted, the all-upper-case variants are
accepted only for e01, s01, l01, raw, img, dd, iso and ad1, and the
upper-case variants of ex01, dmg, sparse and sparseimage are rejected. -/
theorem claim_C7_amended :
    (∀ filename : String,
        allowed_file filename = true ↔ splitextExt filename ∈ ALLOWED_EXTENSIONS)
    ∧ specListedExtensions.all (fun e => allowed_file ("a" ++ e)) = true
    ∧ [".E01", ".S01", ".L01", ".RAW", ".IMG", ".DD", ".ISO", ".AD1"].all
        (fun e => allowed_file ("a" ++ e)) = true
    ∧ [".EX01", ".DMG", ".SPARSE", ".SPARSEIMAGE"].all
        (fun e => !(allowed_file ("a" ++ e))) = true := by
  refine ⟨fun filename => ?_, by decide, by decide, by decide⟩
  simp [allowed_file]

/-- Claim C8: the reference scenario — the first registration at
"/tmp/img1.raw" yields id "E001"; opening a session whose backend import
fails issues the basename token "img1.raw" bound to the demo handler; and
listing with that token at offset 0 includes the entry "demo_file.txt" with
`is_directory = false`. -/
theorem claim_C8 :
    (add_evidence "/tmp/img1.raw" initRegistry).2 = "E001"
    ∧ (upload (fun _ => ConstructOutcome.importError "no backend")
        "/tmp/img1.raw" []).response = UploadResp.redirectBrowse "img1.raw"
    ∧ api_list
        (upload (fun _ => ConstructOutcome.importError "no backend")
          "/tmp/img1.raw" []).image_handlers
        ⟨some "img1.raw", some "0", none⟩
        = Except.ok ((DemoImageHandler "/tmp/img1.raw").get_directory_contents 0 none)
    ∧ ∃ e ∈ (DemoImageHandler "/tmp/img1.raw").get_directory_contents 0 none,
        e.name = "demo_file.txt" ∧ e.is_directory = false := by
  refine ⟨by decide, rfl, rfl, ?_⟩
  refine ⟨_, List.mem_cons_self _ _, rfl, rfl⟩

/-- Claim C10: for every query string, the demo backend's search returns
exactly one result, whose name reflects the query verbatim as
"demo_search_" ++ q ++ ".txt" and whose `inode_item` is "12348"; in
particular the result list is never empty, even for the empty query. -/
theorem claim_C10 (image_path q : String) :
    (DemoImageHandler image_path).search_files q
      = [⟨"demo_search_" ++ q ++ ".txt", "/demo_search_" ++ q ++ ".txt", "256 B",
          "2024-01-01 12:00:00 UTC", "2024-01-01 12:00:00 UTC",
          "2024-01-01 12:00:00 UTC", "2024-01-01 12:00:00 UTC", "12348"⟩]
    ∧ ((DemoImageHandler image_path).search_files q).length = 1
    ∧ (DemoImageHandler image_path).search_files q ≠ [] := by
  refine ⟨rfl, rfl, ?_⟩
  exact List.cons_ne_nil _ _

end Forens
